import Mathlib

/-!
Verification development for the Taskly backend (Node/Express + Mongoose).

The definitions below are a shallow embedding of the code in
src/api/controllers, src/api/dao, src/api/middlewares, src/api/models and
the route files: the document store is a pure state value, Mongoose
queries become list operations, bcrypt and jsonwebtoken are modelled as
injective pure functions, and each Express handler becomes a function
from the store and the parsed request to a response together with the
store after the handler ran.
-/

namespace Taskly

/-- Signed token as produced by jsonwebtoken: payload carries the user id,
issue and expiry instants (milliseconds), and the structure records the
secret used for signing so that verification can check it. -/
structure Jwt where
  subjectId : Nat
  iatMs : Nat
  expMs : Nat
  secret : String
deriving Repr, DecidableEq

/-- Model of jwt.sign with a payload holding the user id and an expiresIn
option of ttlMs milliseconds from the current instant. -/
def jwtSign (subjectId : Nat) (secret : String) (nowMs ttlMs : Nat) : Jwt :=
  ⟨subjectId, nowMs, nowMs + ttlMs, secret⟩

/-- Model of jwt.verify: succeeds with the embedded user id exactly when
the signature matches the supplied secret and the expiry instant has not
passed. -/
def jwtVerify (t : Jwt) (secret : String) (nowMs : Nat) : Option Nat :=
  if t.secret = secret ∧ nowMs < t.expMs then some t.subjectId else none

/-- Model of bcrypt.hash: an injective one-way digest of the plaintext. -/
def bcryptHash (plain : String) : String :=
  "bcrypt$" ++ plain

/-- Model of bcrypt.compare: verification of a plaintext against a stored
digest. -/
def bcryptCompare (plain stored : String) : Bool :=
  bcryptHash plain == stored

/-- User document of the Mongoose User schema (src/api/models/User.js):
names, age, unique email, password digest and the two reset-token fields,
both null outside an open reset window. -/
structure User where
  uid : Nat
  firstName : String
  lastName : String
  age : Nat
  email : String
  password : String
  resetPasswordToken : Option Jwt
  resetPasswordExpires : Option Nat
deriving Repr, DecidableEq

/-- Task document of the Mongoose Task schema: title, optional details,
date, time, status and the owner reference userId. -/
structure Task where
  tid : Nat
  title : String
  details : Option String
  date : String
  time : String
  status : String
  userId : Nat
deriving Repr, DecidableEq

/-- State of the document store: the user and task collections plus a
counter supplying fresh object ids. -/
structure DB where
  users : List User
  tasks : List Task
  nextId : Nat
deriving Repr, DecidableEq

/-- UserDAO.readByEmail: User.findOne on an email equality filter. -/
def UserDAO_readByEmail (db : DB) (e : String) : Option User :=
  db.users.find? (fun u => u.email == e)

/-- Filter used by UserDAO.readByResetToken: email equality, reset-token
equality, and resetPasswordExpires strictly greater than the current
instant (the Mongo gt operator on Date.now()). -/
def resetMatch (u : User) (e : String) (tok : Jwt) (nowMs : Nat) : Bool :=
  u.email == e && u.resetPasswordToken == some tok &&
    (match u.resetPasswordExpires with
     | some x => nowMs < x
     | none => false)

/-- UserDAO.readByResetToken: User.findOne on the combined filter. -/
def UserDAO_readByResetToken (db : DB) (e : String) (tok : Jwt) (nowMs : Nat) :
    Option User :=
  db.users.find? (fun u => resetMatch u e tok nowMs)

/-- GlobalDao.update on the User model: findByIdAndUpdate with a full
replacement document, as both forgotPassword and resetPassword pass the
whole mutated user record. -/
def GlobalDao_updateUser (db : DB) (id : Nat) (newDoc : User) : DB :=
  { db with users := db.users.map (fun u => if u.uid == id then newDoc else u) }

/-- GlobalDao.read on the Task model: findById followed by a thrown error
when the document is missing (the error propagates to the calling
controller as a rejected promise). -/
def GlobalDao_readTask (db : DB) (id : Nat) : Except String Task :=
  match db.tasks.find? (fun t => t.tid == id) with
  | some t => Except.ok t
  | none => Except.error "Error getting document by ID: Document not found"

/-- Parsed JSON body of a task request: each field is absent or a value,
mirroring what express.json delivers to the handler. The userId field is
whatever owner reference the client chose to include. -/
structure TaskBody where
  title : Option String
  details : Option String
  date : Option String
  time : Option String
  status : Option String
  userId : Option Nat
deriving Repr, DecidableEq

/-- JavaScript truthiness of a destructured string field: absent and the
empty string are falsy. -/
def jsTruthy (s : Option String) : Bool :=
  match s with
  | none => false
  | some str => !(str == "")

/-- Application of a Mongo update document to a stored task, as
findByIdAndUpdate does: every field present in the update is written,
every absent field is kept. -/
def applyTaskUpdates (t : Task) (b : TaskBody) : Task :=
  { t with
    title := b.title.getD t.title
    details := match b.details with | some d => some d | none => t.details
    date := b.date.getD t.date
    time := b.time.getD t.time
    status := b.status.getD t.status
    userId := b.userId.getD t.userId }

/-- TaskDAO.update: Task.findByIdAndUpdate(taskId, updates). -/
def TaskDAO_update (db : DB) (id : Nat) (b : TaskBody) : DB :=
  { db with tasks := db.tasks.map (fun t => if t.tid == id then applyTaskUpdates t b else t) }

/-- GlobalDao.delete on the Task model: findByIdAndDelete. -/
def TaskDAO_delete (db : DB) (id : Nat) : DB :=
  { db with tasks := db.tasks.filter (fun t => !(t.tid == id)) }

/-- Uppercase character class A-Z of the password pattern. -/
def isUpperCh (c : Char) : Bool :=
  65 ≤ c.toNat && c.toNat ≤ 90

/-- Lowercase character class a-z of the password pattern. -/
def isLowerCh (c : Char) : Bool :=
  97 ≤ c.toNat && c.toNat ≤ 122

/-- Digit character class 0-9 of the password pattern. -/
def isDigitCh (c : Char) : Bool :=
  48 ≤ c.toNat && c.toNat ≤ 57

/-- Code points of the punctuation class of the password pattern in
UserController.passwordValidation and the User schema. -/
def symbolCodes : List Nat :=
  [33, 64, 35, 36, 37, 94, 38, 42, 40, 41, 95, 43, 45, 61, 91, 93,
   123, 125, 59, 39, 58, 34, 92, 124, 44, 46, 60, 62, 47, 63]

/-- Membership in the punctuation class of the password pattern. -/
def isSymbolCh (c : Char) : Bool :=
  symbolCodes.contains c.toNat

/-- Character class of the anchored body of the password pattern:
letters, digits and the punctuation class. -/
def isRegexAllowedCh (c : Char) : Bool :=
  isUpperCh c || isLowerCh c || isDigitCh c || isSymbolCh c

/-- Test of the anchored password pattern of
UserController.passwordValidation: at least 8 characters, all drawn from
the allowed classes, with lookaheads demanding an uppercase letter, a
digit and a punctuation character. -/
def passwordRegexTest (p : String) : Bool :=
  decide (8 ≤ p.data.length) && p.data.all isRegexAllowedCh &&
    p.data.any isUpperCh && p.data.any isDigitCh && p.data.any isSymbolCh

/-- UserController.passwordValidation: confirmation match first, then
the pattern test; the returned value is the error message, or none when
the password is accepted. -/
def passwordValidation (password confirmPassword : String) : Option String :=
  if password ≠ confirmPassword then
    some "Password and confirm password don\x27t match"
  else if !(passwordRegexTest password) then
    some "Password invalid"
  else
    none

/-- Parsed JSON body of a registration request. -/
structure RegisterBody where
  firstName : String
  lastName : String
  age : Nat
  email : String
  password : String
  confirmPassword : String
deriving Repr, DecidableEq

/-- Response of the registration handler paired with the store after the
handler ran. -/
structure RegisterRes where
  status : Nat
  message : Option String
  newUserId : Option Nat
  dbAfter : DB
deriving Repr, DecidableEq

/-- UserController.create: confirmation and pattern gates, then the
email-uniqueness check, then bcrypt hashing and UserDAO.create, which
persists a fresh user document and answers 201 with its id. -/
def UserController_create (db : DB) (b : RegisterBody) : RegisterRes :=
  match passwordValidation b.password b.confirmPassword with
  | some msg => ⟨400, some msg, none, db⟩
  | none =>
    match UserDAO_readByEmail db b.email with
    | some _ => ⟨409, some "Email already in use", none, db⟩
    | none =>
      let newUser : User :=
        ⟨db.nextId, b.firstName, b.lastName, b.age, b.email,
          bcryptHash b.password, none, none⟩
      ⟨201, none, some db.nextId,
        { db with users := db.users ++ [newUser], nextId := db.nextId + 1 }⟩

/-- Cookie attributes passed to res.cookie when the session token is set. -/
structure SetCookie where
  token : Jwt
  httpOnly : Bool
  secure : Bool
  sameSiteStrict : Bool
deriving Repr, DecidableEq

/-- Response of the login handler: status, message, the id and email
carried by the success body, and the cookie set on success. -/
structure LoginRes where
  status : Nat
  message : String
  userId : Option Nat
  email : Option String
  cookie : Option SetCookie
deriving Repr, DecidableEq

/-- Two hours in milliseconds: the expiresIn option of the session token. -/
def twoHoursMs : Nat := 7200000

/-- One hour in milliseconds: the expiresIn option of the reset token and
the stored resetPasswordExpires offset. -/
def oneHourMs : Nat := 3600000

/-- UserController.login: lookup by email, bcrypt comparison, and on a
match a 2h session token set as an HTTP-only same-site-strict cookie,
secure exactly in production; both failure branches answer 401 with one
generic message. -/
def UserController_login (db : DB) (email pw : String) (secret : String)
    (nowMs : Nat) (production : Bool) : LoginRes :=
  match UserDAO_readByEmail db email with
  | none => ⟨401, "Invalid email or password", none, none, none⟩
  | some u =>
    if bcryptCompare pw u.password then
      let t := jwtSign u.uid secret nowMs twoHoursMs
      ⟨200, "Login successful", some u.uid, some u.email,
        some ⟨t, true, production, true⟩⟩
    else
      ⟨401, "Invalid email or password", none, none, none⟩

/-- Reset email dispatched by forgotPassword: recipient plus the token and
email embedded in the reset link of the message body. -/
structure EmailMsg where
  recipient : String
  linkToken : Jwt
  linkEmail : String
deriving Repr, DecidableEq

/-- Response of the forgot-password handler: status, the single-field
JSON body as a key-value list, the store after the handler ran, and the
emails whose dispatch was attempted. -/
structure ForgotRes where
  status : Nat
  body : List (String × String)
  dbAfter : DB
  emails : List EmailMsg
deriving Repr, DecidableEq

/-- Names of the fields of a JSON body, used to compare response shapes. -/
def bodyShape (body : List (String × String)) : List String :=
  body.map Prod.fst

/-- UserController.forgotPassword: an unknown email answers a generic 202
acceptance and touches nothing; a known email gets a 1h reset token
persisted on its user record together with the expiry instant, an email
dispatch attempt, and a 200 acknowledgement. -/
def UserController_forgotPassword (db : DB) (email : String) (secret : String)
    (nowMs : Nat) : ForgotRes :=
  match UserDAO_readByEmail db email with
  | none =>
    ⟨202, [("message", "If the email is registered, you will receive a password reset email")],
      db, []⟩
  | some u =>
    let t := jwtSign u.uid secret nowMs oneHourMs
    let u2 : User :=
      { u with resetPasswordToken := some t,
               resetPasswordExpires := some (nowMs + oneHourMs) }
    ⟨200, [("message", "Password reset email sent")],
      GlobalDao_updateUser db u.uid u2, [⟨u.email, t, u.email⟩]⟩

/-- Response of the reset-password handler paired with the store after
the handler ran. -/
structure ResetRes where
  status : Nat
  message : String
  dbAfter : DB
deriving Repr, DecidableEq

/-- UserController.resetPassword: lookup by email + token + live expiry;
no match answers 400 and touches nothing; then the registration password
gates; on success the new digest is stored and both reset fields are
cleared. -/
def UserController_resetPassword (db : DB) (email : String) (tok : Jwt)
    (password confirmPassword : String) (nowMs : Nat) : ResetRes :=
  match UserDAO_readByResetToken db email tok nowMs with
  | none => ⟨400, "Invalid or expired token", db⟩
  | some u =>
    match passwordValidation password confirmPassword with
    | some msg => ⟨400, msg, db⟩
    | none =>
      let u2 : User :=
        { u with password := bcryptHash password,
                 resetPasswordToken := none,
                 resetPasswordExpires := none }
      ⟨200, "Password has been reset successfully", GlobalDao_updateUser db u.uid u2⟩

/-- Response of a task mutation handler paired with the store after the
handler ran. -/
structure TaskMutRes where
  status : Nat
  message : String
  dbAfter : DB
deriving Repr, DecidableEq

/-- Response of the task creation handler paired with the store after the
handler ran. -/
structure TaskCreateRes where
  status : Nat
  newTaskId : Option Nat
  dbAfter : DB
deriving Repr, DecidableEq

/-- TaskController.create: presence check on title, date, time and
status, then a task document built by spreading the body and overwriting
userId with the authenticated subject id, persisted via TaskDAO.create. -/
def TaskController_create (db : DB) (subjectId : Nat) (b : TaskBody) :
    TaskCreateRes :=
  if !(jsTruthy b.title && jsTruthy b.date && jsTruthy b.time && jsTruthy b.status) then
    ⟨400, none, db⟩
  else
    let newTask : Task :=
      ⟨db.nextId, b.title.getD "", b.details, b.date.getD "", b.time.getD "",
        b.status.getD "Pending", subjectId⟩
    ⟨201, some db.nextId,
      { db with tasks := db.tasks ++ [newTask], nextId := db.nextId + 1 }⟩

/-- TaskController.update2, the handler mounted on PUT /tasks/:id: reads
the task by id only (a missing id makes GlobalDao.read throw, which lands
in the catch block as a 500) and then applies the raw request body via
TaskDAO.update. -/
def TaskController_update2 (db : DB) (taskId : Nat) (b : TaskBody) : TaskMutRes :=
  match GlobalDao_readTask db taskId with
  | Except.error _ => ⟨500, "We couldn\x27t update your task, please try again", db⟩
  | Except.ok _ => ⟨200, "Task updated successfully", TaskDAO_update db taskId b⟩

/-- TaskController.delete2, the handler mounted on DELETE /tasks/:id:
reads the task by id only (a missing id makes GlobalDao.read throw, which
lands in the catch block as a 500) and then deletes it. -/
def TaskController_delete2 (db : DB) (taskId : Nat) : TaskMutRes :=
  match GlobalDao_readTask db taskId with
  | Except.error _ => ⟨500, "We couldn\x27t delete your task, please try again", db⟩
  | Except.ok _ => ⟨200, "Task deleted successfully", TaskDAO_delete db taskId⟩

/-- authenticateToken middleware: missing cookie and failed verification
each answer 401; otherwise the decoded user id is attached to the request. -/
def authenticateToken (cookie : Option Jwt) (secret : String) (nowMs : Nat) :
    Option Nat :=
  match cookie with
  | none => none
  | some t => jwtVerify t secret nowMs

/-- Route PUT /tasks/:id of the task router: authenticateToken followed by
TaskController.update2; the decoded subject id is bound but the handler
never consults it. -/
def routedTaskPut (db : DB) (cookie : Option Jwt) (secret : String)
    (nowMs : Nat) (taskId : Nat) (b : TaskBody) : TaskMutRes :=
  match authenticateToken cookie secret nowMs with
  | none => ⟨401, "No token provided or invalid", db⟩
  | some _subjectId => TaskController_update2 db taskId b

/-- Route POST /tasks of the task router: authenticateToken followed by
TaskController.create with the decoded subject id attached to the
request. -/
def routedTaskPost (db : DB) (cookie : Option Jwt) (secret : String)
    (nowMs : Nat) (b : TaskBody) : TaskCreateRes :=
  match authenticateToken cookie secret nowMs with
  | none => ⟨401, none, db⟩
  | some subjectId => TaskController_create db subjectId b

/-- Route DELETE /tasks/:id of the task router: authenticateToken followed
by TaskController.delete2; the decoded subject id is bound but the handler
never consults it. -/
def routedTaskDelete (db : DB) (cookie : Option Jwt) (secret : String)
    (nowMs : Nat) (taskId : Nat) : TaskMutRes :=
  match authenticateToken cookie secret nowMs with
  | none => ⟨401, "No token provided or invalid", db⟩
  | some _subjectId => TaskController_delete2 db taskId

/-- Response of the user-listing handler: status and the returned user
documents, verbatim from the store. -/
structure UsersListRes where
  status : Nat
  items : List User
deriving Repr, DecidableEq

/-- Route GET /users of the user router: mounted without any
authentication middleware, it runs GlobalController.getAll directly, which
answers the stored user documents matching the query filter; the cookie
argument models whatever session the caller may or may not present and is
never consulted. -/
def routedGetUsers (db : DB) (cookie : Option Jwt) (filterQ : User → Bool) :
    UsersListRes :=
  match cookie with
  | _ => ⟨200, db.users.filter filterQ⟩

/-- Number of stored users carrying a given email. -/
def countEmail (db : DB) (e : String) : Nat :=
  (db.users.filter (fun u => u.email == e)).length

/-- Complexity predicate exactly as the specification words it: minimum
length 8, at least one uppercase letter, one digit, one symbol. -/
def specComplexityOk (p : String) : Bool :=
  decide (8 ≤ p.data.length) && p.data.any isUpperCh &&
    p.data.any isDigitCh && p.data.any isSymbolCh

/-- Concrete store used to evaluate the handlers: two users, one task
owned by the first user. -/
def secretDemo : String := "jwt-secret"

/-- First demo user, owner of the demo task. -/
def userA : User :=
  ⟨1, "Ana", "Alvarez", 30, "a@b.com", bcryptHash "Abcdef1!", none, none⟩

/-- Second demo user, not the owner of the demo task. -/
def userB : User :=
  ⟨2, "Beto", "Buendia", 28, "b@b.com", bcryptHash "Zyxwvu9?", none, none⟩

/-- Demo task, owned by the first demo user. -/
def taskOfA : Task :=
  ⟨10, "Write report", none, "2024-01-01", "10:00", "Pending", 1⟩

/-- Demo store holding both users and the task of the first user. -/
def dbDemo : DB := ⟨[userA, userB], [taskOfA], 11⟩

/-- Valid session token of the first demo user. -/
def tokenA : Jwt := jwtSign 1 secretDemo 0 twoHoursMs

/-- Valid session token of the second demo user. -/
def tokenB : Jwt := jwtSign 2 secretDemo 0 twoHoursMs

/-- Update body sent by the second user against the task of the first. -/
def crossBody : TaskBody :=
  ⟨some "HIJACKED", none, some "2024-02-02", some "12:00", some "Completed", none⟩

/-- Update body carrying an extra userId field that reassigns the owner. -/
def ownerHijackBody : TaskBody :=
  ⟨some "Write report", none, some "2024-01-01", some "10:00", some "Pending", some 2⟩

/-- C1: the claim states that the mounted task update and delete
operations answer 404 and leave the task unchanged whenever the
authenticated subject is not the owner or the id does not exist. The code
mounts update2 and delete2, which never compare the owner: evaluated on
the demo store, a valid session of user 2 updates and deletes the task of
user 1 with status 200 and the store changes, and a nonexistent id
answers 500 rather than 404. -/
theorem taskMutation_ownership_guard_missing :
    (routedTaskPut dbDemo (some tokenB) secretDemo 1000 10 crossBody).status = 200 ∧
    (routedTaskPut dbDemo (some tokenB) secretDemo 1000 10 crossBody).dbAfter.tasks =
      [⟨10, "HIJACKED", none, "2024-02-02", "12:00", "Completed", 1⟩] ∧
    (routedTaskDelete dbDemo (some tokenB) secretDemo 1000 10).status = 200 ∧
    (routedTaskDelete dbDemo (some tokenB) secretDemo 1000 10).dbAfter.tasks = [] ∧
    (routedTaskPut dbDemo (some tokenB) secretDemo 1000 99 crossBody).status = 500 ∧
    (routedTaskDelete dbDemo (some tokenB) secretDemo 1000 99).status = 500 := by
  decide

/-- C2: the claim states that a mounted task update only ever writes the
whitelisted fields title, date, time, status, details, and in particular
never changes userId. The mounted handler update2 passes the raw request
body to findByIdAndUpdate: evaluated on the demo store, an update of task
10 under the owner session carrying an extra userId field reassigns the
stored owner from user 1 to user 2 with status 200. -/
theorem taskUpdate_field_whitelist_missing :
    (routedTaskPut dbDemo (some tokenA) secretDemo 1000 10 ownerHijackBody).status = 200 ∧
    ((routedTaskPut dbDemo (some tokenA) secretDemo 1000 10 ownerHijackBody).dbAfter.tasks.find?
        (fun t => t.tid == 10)) =
      some ⟨10, "Write report", none, "2024-01-01", "10:00", "Pending", 2⟩ := by
  decide

/-- C9: every task persisted by the mounted task creation handler has its
owner reference equal to the authenticated subject id; a userId field in
the request body is ignored entirely, so the created record never carries
a client-chosen owner. -/
theorem taskCreate_owner_is_subject (db : DB) (subj : Nat) (b : TaskBody)
    (h : (jsTruthy b.title && jsTruthy b.date && jsTruthy b.time && jsTruthy b.status) = true) :
    (TaskController_create db subj b).status = 201 ∧
    (∀ v : Option Nat,
      TaskController_create db subj { b with userId := v } = TaskController_create db subj b) ∧
    (∀ t ∈ (TaskController_create db subj b).dbAfter.tasks, t ∈ db.tasks ∨ t.userId = subj) ∧
    ∀ (cookie : Option Jwt) (secret : String) (nowMs : Nat),
      authenticateToken cookie secret nowMs = some subj →
      routedTaskPost db cookie secret nowMs b = TaskController_create db subj b := by
  refine ⟨?_, ?_, ?_, ?_⟩
  · simp [TaskController_create, h]
  · intro v
    rfl
  · intro t ht
    simp only [TaskController_create, h, Bool.not_true, Bool.false_eq_true,
      if_false] at ht
    rcases List.mem_append.mp ht with hl | hr
    · exact Or.inl hl
    · right
      rw [List.mem_singleton.mp hr]
  · intro cookie secret nowMs hauth
    simp [routedTaskPost, hauth]

/-- Witness for C9 at a concrete request whose body tries to set owner 99
while the session subject is user 2. -/
theorem taskCreate_owner_is_subject_witness :
    (TaskController_create dbDemo 2
      ⟨some "T", none, some "2024-03-03", some "09:00", some "Pending", some 99⟩).status = 201 ∧
    TaskController_create dbDemo 2
        ⟨some "T", none, some "2024-03-03", some "09:00", some "Pending", some 99⟩ =
      TaskController_create dbDemo 2
        ⟨some "T", none, some "2024-03-03", some "09:00", some "Pending", none⟩ ∧
    routedTaskPost dbDemo (some tokenB) secretDemo 1000
        ⟨some "T", none, some "2024-03-03", some "09:00", some "Pending", none⟩ =
      TaskController_create dbDemo 2
        ⟨some "T", none, some "2024-03-03", some "09:00", some "Pending", none⟩ :=
  ⟨(taskCreate_owner_is_subject dbDemo 2
      ⟨some "T", none, some "2024-03-03", some "09:00", some "Pending", none⟩ (by decide)).1,
    (taskCreate_owner_is_subject dbDemo 2
      ⟨some "T", none, some "2024-03-03", some "09:00", some "Pending", none⟩ (by decide)).2.1 (some 99),
    (taskCreate_owner_is_subject dbDemo 2
      ⟨some "T", none, some "2024-03-03", some "09:00", some "Pending", none⟩ (by decide)).2.2.2
      (some tokenB) secretDemo 1000 (by decide)⟩

/-- C10: the user-listing route carries no authentication middleware, so
it is reachable with no session at all, and it answers every stored user
document matching the query filter, verbatim — password digests and
reset-token fields included — whatever cookie the caller presents. -/
theorem getUsers_unauthenticated_returns_all (db : DB) (cookie : Option Jwt)
    (filterQ : User → Bool) :
    routedGetUsers db none filterQ = ⟨200, db.users.filter filterQ⟩ ∧
    routedGetUsers db cookie filterQ = routedGetUsers db none filterQ :=
  ⟨rfl, rfl⟩

/-- C4: a login naming an unknown email and a login naming a known email
with a password that fails the bcrypt comparison produce literally the
same response: status 401, the one generic message, no id, no email, no
cookie — so the pair reveals nothing about which credential was wrong. -/
theorem login_enumeration_resistant (db : DB) (e1 e2 pw1 pw2 secret : String)
    (now : Nat) (prod : Bool) (u : User)
    (h1 : UserDAO_readByEmail db e1 = none)
    (h2 : UserDAO_readByEmail db e2 = some u)
    (h3 : bcryptCompare pw2 u.password = false) :
    UserController_login db e1 pw1 secret now prod =
      ⟨401, "Invalid email or password", none, none, none⟩ ∧
    UserController_login db e2 pw2 secret now prod =
      UserController_login db e1 pw1 secret now prod := by
  constructor
  · simp [UserController_login, h1]
  · simp [UserController_login, h1, h2, h3]

/-- Witness for C4 on the demo store: unknown email versus the first
demo user with a wrong password. -/
theorem login_enumeration_resistant_witness :
    UserController_login dbDemo "nobody@b.com" "Whatever1!" secretDemo 5 false =
      ⟨401, "Invalid email or password", none, none, none⟩ ∧
    UserController_login dbDemo "a@b.com" "WrongPw1!" secretDemo 5 false =
      UserController_login dbDemo "nobody@b.com" "Whatever1!" secretDemo 5 false :=
  login_enumeration_resistant dbDemo "nobody@b.com" "a@b.com" "Whatever1!" "WrongPw1!"
    secretDemo 5 false userA (by decide) (by decide) (by decide)

/-- C8: a login whose email is found and whose password verifies against
the stored digest answers 200 with the user id and email in the body and
sets an HTTP-only cookie holding a signed token; verifying that token
with the process-wide secret yields the user id, and its expiry is two
hours after issuance. -/
theorem login_success_cookie_token (db : DB) (email pw secret : String)
    (now : Nat) (prod : Bool) (u : User)
    (h1 : UserDAO_readByEmail db email = some u)
    (h2 : bcryptCompare pw u.password = true) :
    UserController_login db email pw secret now prod =
      ⟨200, "Login successful", some u.uid, some u.email,
        some ⟨jwtSign u.uid secret now twoHoursMs, true, prod, true⟩⟩ ∧
    jwtVerify (jwtSign u.uid secret now twoHoursMs) secret now = some u.uid ∧
    (jwtSign u.uid secret now twoHoursMs).expMs = now + twoHoursMs := by
  refine ⟨?_, ?_, rfl⟩
  · simp [UserController_login, h1, h2]
  · have hlt : now < now + twoHoursMs := by
      have : 0 < twoHoursMs := by decide
      omega
    simp [jwtVerify, jwtSign, hlt]

/-- Witness for C8: the first demo user logs in with the correct
password at instant 42. -/
theorem login_success_cookie_token_witness :
    UserController_login dbDemo "a@b.com" "Abcdef1!" secretDemo 42 false =
      ⟨200, "Login successful", some 1, some "a@b.com",
        some ⟨jwtSign 1 secretDemo 42 twoHoursMs, true, false, true⟩⟩ ∧
    jwtVerify (jwtSign 1 secretDemo 42 twoHoursMs) secretDemo 42 = some 1 ∧
    (jwtSign 1 secretDemo 42 twoHoursMs).expMs = 42 + twoHoursMs :=
  login_success_cookie_token dbDemo "a@b.com" "Abcdef1!" secretDemo 42 false userA
    (by decide) (by decide)

/-- C5: a forgot-password run naming an unregistered email and one naming
a registered email both answer a 2xx acceptance whose JSON body has the
same single-field shape; only the registered run persists the reset token
and expiry on the user record and attempts an email dispatch, while the
unregistered run leaves the store untouched and sends nothing. -/
theorem forgotPassword_enumeration_and_mutation (db : DB) (e1 e2 secret : String)
    (now : Nat) (u : User)
    (h1 : UserDAO_readByEmail db e1 = none)
    (h2 : UserDAO_readByEmail db e2 = some u) :
    (200 ≤ (UserController_forgotPassword db e1 secret now).status ∧
      (UserController_forgotPassword db e1 secret now).status < 300) ∧
    (200 ≤ (UserController_forgotPassword db e2 secret now).status ∧
      (UserController_forgotPassword db e2 secret now).status < 300) ∧
    bodyShape (UserController_forgotPassword db e1 secret now).body =
      bodyShape (UserController_forgotPassword db e2 secret now).body ∧
    (UserController_forgotPassword db e1 secret now).dbAfter = db ∧
    (UserController_forgotPassword db e1 secret now).emails = [] ∧
    (UserController_forgotPassword db e2 secret now).dbAfter =
      GlobalDao_updateUser db u.uid
        { u with resetPasswordToken := some (jwtSign u.uid secret now oneHourMs),
                 resetPasswordExpires := some (now + oneHourMs) } ∧
    (UserController_forgotPassword db e2 secret now).emails =
      [⟨u.email, jwtSign u.uid secret now oneHourMs, u.email⟩] := by
  simp [UserController_forgotPassword, h1, h2, bodyShape]

/-- Witness for C5 on the demo store: unregistered email versus the
first demo user. -/
theorem forgotPassword_enumeration_and_mutation_witness :
    bodyShape (UserController_forgotPassword dbDemo "nobody@b.com" secretDemo 7).body =
      bodyShape (UserController_forgotPassword dbDemo "a@b.com" secretDemo 7).body ∧
    (UserController_forgotPassword dbDemo "nobody@b.com" secretDemo 7).dbAfter = dbDemo ∧
    (UserController_forgotPassword dbDemo "nobody@b.com" secretDemo 7).emails = [] ∧
    (UserController_forgotPassword dbDemo "a@b.com" secretDemo 7).emails =
      [⟨"a@b.com", jwtSign 1 secretDemo 7 oneHourMs, "a@b.com"⟩] := by
  have h := forgotPassword_enumeration_and_mutation dbDemo "nobody@b.com" "a@b.com"
    secretDemo 7 userA (by decide) (by decide)
  exact ⟨h.2.2.1, h.2.2.2.1, h.2.2.2.2.1, h.2.2.2.2.2.2⟩

/-- Passing the anchored password pattern implies the four spec-worded
complexity conditions: the pattern additionally restricts the alphabet,
so it is at least as strict. -/
theorem passwordRegexTest_implies_spec (p : String)
    (h : passwordRegexTest p = true) : specComplexityOk p = true := by
  unfold passwordRegexTest at h
  unfold specComplexityOk
  simp only [Bool.and_eq_true] at h ⊢
  tauto

/-- Auxiliary list fact: a search that fails on a prefix continues on the
suffix. -/
theorem find?_append_of_none {α : Type} (p : α → Bool) (l1 l2 : List α)
    (h : l1.find? p = none) : (l1 ++ l2).find? p = l2.find? p := by
  induction l1 with
  | nil => simp
  | cons a l ih =>
    cases hpa : p a
    · simp only [List.cons_append, List.find?, hpa] at h ⊢
      exact ih h
    · simp only [List.find?, hpa] at h
      exact absurd h (Option.some_ne_none a)

/-- Auxiliary list fact: a failed search means the matching sublist is
empty. -/
theorem filter_eq_nil_of_find?_eq_none {α : Type} (p : α → Bool) (l : List α)
    (h : l.find? p = none) : l.filter p = [] := by
  induction l with
  | nil => rfl
  | cons a l ih =>
    cases hpa : p a
    · simp only [List.find?, hpa] at h
      simp only [List.filter, hpa]
      exact ih h
    · simp only [List.find?, hpa] at h
      exact absurd h (Option.some_ne_none a)

/-- C6: a registration whose password differs from its confirmation, or
whose password fails the complexity predicate of minimum length 8 with at
least one uppercase letter, one digit and one symbol, answers 400 and
writes nothing to the store, whatever the store holds — in particular the
validation gates fire before the email-uniqueness check, and a
confirmation mismatch is reported by the mismatch message. -/
theorem register_validation_gates (db : DB) (b : RegisterBody)
    (h : b.password ≠ b.confirmPassword ∨ specComplexityOk b.password = false) :
    (UserController_create db b).status = 400 ∧
    (UserController_create db b).dbAfter = db ∧
    (b.password ≠ b.confirmPassword →
      (UserController_create db b).message =
        some "Password and confirm password don\x27t match") := by
  by_cases hc : b.password = b.confirmPassword
  · have hs : specComplexityOk b.password = false := by
      rcases h with h | h
      · exact absurd hc h
      · exact h
    have hr : passwordRegexTest b.password = false := by
      cases hreg : passwordRegexTest b.password
      · rfl
      · have hgood := passwordRegexTest_implies_spec _ hreg
        rw [hs] at hgood
        exact absurd hgood (by simp)
    have hr2 : passwordRegexTest b.confirmPassword = false := by
      rw [← hc]
      exact hr
    refine ⟨?_, ?_, fun hne => absurd hc hne⟩
    · simp [UserController_create, passwordValidation, hc, hr, hr2]
    · simp [UserController_create, passwordValidation, hc, hr, hr2]
  · refine ⟨?_, ?_, fun _ => ?_⟩ <;>
      simp [UserController_create, passwordValidation, hc]

/-- Witness for C6 at a concrete registration whose password matches its
confirmation but fails the complexity predicate. -/
theorem register_validation_gates_witness :
    (UserController_create dbDemo
      ⟨"Eva", "Escobar", 20, "e@b.com", "short1", "short1"⟩).status = 400 ∧
    (UserController_create dbDemo
      ⟨"Eva", "Escobar", 20, "e@b.com", "short1", "short1"⟩).dbAfter = dbDemo :=
  ⟨(register_validation_gates dbDemo
      ⟨"Eva", "Escobar", 20, "e@b.com", "short1", "short1"⟩ (Or.inr (by decide))).1,
   (register_validation_gates dbDemo
      ⟨"Eva", "Escobar", 20, "e@b.com", "short1", "short1"⟩ (Or.inr (by decide))).2.1⟩

/-- C7: when a first registration for an email passes validation against
a store not containing that email, it answers 201 and exactly one user
record with that email is stored; a second well-formed registration with
the same email then answers 409, writes nothing, and the record count for
that email stays one. -/
theorem register_duplicate_email_conflict (db : DB) (b1 b2 : RegisterBody)
    (hv1 : passwordValidation b1.password b1.confirmPassword = none)
    (hv2 : passwordValidation b2.password b2.confirmPassword = none)
    (he : UserDAO_readByEmail db b1.email = none)
    (he2 : b2.email = b1.email) :
    (UserController_create db b1).status = 201 ∧
    countEmail (UserController_create db b1).dbAfter b1.email = 1 ∧
    (UserController_create (UserController_create db b1).dbAfter b2).status = 409 ∧
    (UserController_create (UserController_create db b1).dbAfter b2).dbAfter =
      (UserController_create db b1).dbAfter ∧
    countEmail (UserController_create (UserController_create db b1).dbAfter b2).dbAfter
      b1.email = 1 := by
  have hfind0 : db.users.find? (fun u => u.email == b1.email) = none := he
  have hfilter : db.users.filter (fun u => u.email == b1.email) = [] :=
    filter_eq_nil_of_find?_eq_none _ _ hfind0
  have hstep : UserController_create db b1 =
      ⟨201, none, some db.nextId,
        ⟨db.users ++
            [⟨db.nextId, b1.firstName, b1.lastName, b1.age, b1.email,
              bcryptHash b1.password, none, none⟩],
          db.tasks, db.nextId + 1⟩⟩ := by
    simp [UserController_create, hv1, he]
  have hfind2 : (db.users ++
      [(⟨db.nextId, b1.firstName, b1.lastName, b1.age, b1.email,
        bcryptHash b1.password, none, none⟩ : User)]).find?
        (fun u => u.email == b2.email) =
      some ⟨db.nextId, b1.firstName, b1.lastName, b1.age, b1.email,
        bcryptHash b1.password, none, none⟩ := by
    rw [he2, find?_append_of_none _ _ _ hfind0]
    simp [List.find?]
  rw [hstep]
  refine ⟨rfl, ?_, ?_, ?_, ?_⟩
  · simp [countEmail, List.filter_append, hfilter, List.filter]
  · simp [UserController_create, hv2, UserDAO_readByEmail, hfind2]
  · simp [UserController_create, hv2, UserDAO_readByEmail, hfind2]
  · simp [UserController_create, hv2, UserDAO_readByEmail, hfind2,
      countEmail, List.filter_append, hfilter, List.filter]

/-- Witness for C7 at a concrete duplicate registration on the demo
store. -/
theorem register_duplicate_email_conflict_witness :
    (UserController_create dbDemo
      ⟨"Cio", "Cruz", 22, "c@b.com", "Abcdef1!", "Abcdef1!"⟩).status = 201 ∧
    (UserController_create (UserController_create dbDemo
        ⟨"Cio", "Cruz", 22, "c@b.com", "Abcdef1!", "Abcdef1!"⟩).dbAfter
      ⟨"Dan", "Diaz", 25, "c@b.com", "Ghijkl2?", "Ghijkl2?"⟩).status = 409 ∧
    countEmail (UserController_create (UserController_create dbDemo
        ⟨"Cio", "Cruz", 22, "c@b.com", "Abcdef1!", "Abcdef1!"⟩).dbAfter
      ⟨"Dan", "Diaz", 25, "c@b.com", "Ghijkl2?", "Ghijkl2?"⟩).dbAfter "c@b.com" = 1 := by
  have h := register_duplicate_email_conflict dbDemo
    ⟨"Cio", "Cruz", 22, "c@b.com", "Abcdef1!", "Abcdef1!"⟩
    ⟨"Dan", "Diaz", 25, "c@b.com", "Ghijkl2?", "Ghijkl2?"⟩
    (by decide) (by decide) (by decide) rfl
  exact ⟨h.1, h.2.2.1, h.2.2.2.2⟩

/-- C3: a reset-password request whose email, token and live expiry do
not all match a stored user answers 400 with the invalid-or-expired
message and leaves the store untouched; a matching request with a valid
new password succeeds with 200 and clears both reset fields, so that
presenting the same token again answers the same 400 and changes
nothing — the token is single use. -/
theorem resetPassword_invalid_and_single_use (db : DB) (email : String) (tok : Jwt)
    (pw cpw : String) (now : Nat) (u : User)
    (hu : db.users.Pairwise (fun a b => a.email ≠ b.email))
    (hf : UserDAO_readByResetToken db email tok now = some u)
    (hv : passwordValidation pw cpw = none) :
    (∀ (db0 : DB) (e0 : String) (t0 : Jwt) (p0 c0 : String) (n0 : Nat),
        (∀ v ∈ db0.users, resetMatch v e0 t0 n0 = false) →
        UserController_resetPassword db0 e0 t0 p0 c0 n0 =
          ⟨400, "Invalid or expired token", db0⟩) ∧
    (UserController_resetPassword db email tok pw cpw now).status = 200 ∧
    (∀ (p2 c2 : String) (n2 : Nat),
      UserController_resetPassword
          (UserController_resetPassword db email tok pw cpw now).dbAfter email tok p2 c2 n2 =
        ⟨400, "Invalid or expired token",
          (UserController_resetPassword db email tok pw cpw now).dbAfter⟩) := by
  have hgen : ∀ (db0 : DB) (e0 : String) (t0 : Jwt) (p0 c0 : String) (n0 : Nat),
      (∀ v ∈ db0.users, resetMatch v e0 t0 n0 = false) →
      UserController_resetPassword db0 e0 t0 p0 c0 n0 =
        ⟨400, "Invalid or expired token", db0⟩ := by
    intro db0 e0 t0 p0 c0 n0 hall
    have hnone : db0.users.find? (fun v => resetMatch v e0 t0 n0) = none :=
      List.find?_eq_none.mpr (fun x hx => by simp [hall x hx])
    simp [UserController_resetPassword, UserDAO_readByResetToken, hnone]
  have hf' : db.users.find? (fun v => resetMatch v email tok now) = some u := hf
  have hmem : u ∈ db.users := List.mem_of_find?_eq_some hf'
  have hmatch : resetMatch u email tok now = true := by
    have := List.find?_some hf'
    simpa using this
  have huemail : u.email = email := by
    simp only [resetMatch, Bool.and_eq_true, beq_iff_eq] at hmatch
    exact hmatch.1.1
  refine ⟨hgen, ?_, ?_⟩
  · simp [UserController_resetPassword, hf, hv]
  · intro p2 c2 n2
    have hstep : UserController_resetPassword db email tok pw cpw now =
        ⟨200, "Password has been reset successfully",
          GlobalDao_updateUser db u.uid
            { u with password := bcryptHash pw, resetPasswordToken := none,
                     resetPasswordExpires := none }⟩ := by
      simp [UserController_resetPassword, hf, hv]
    rw [hstep]
    apply hgen
    intro v hvmem
    simp only [GlobalDao_updateUser, List.mem_map] at hvmem
    obtain ⟨w, hw, rfl⟩ := hvmem
    by_cases hwu : (w.uid == u.uid) = true
    · simp [hwu, resetMatch]
    · simp only [hwu, Bool.false_eq_true, if_false]
      have hwneq : w ≠ u := by
        intro hEq
        apply hwu
        rw [hEq]
        simp
      have hsymm : Symmetric (fun a b : User => a.email ≠ b.email) :=
        fun a b hab hba => hab hba.symm
      have hemail : w.email ≠ u.email :=
        (List.Pairwise.forall hsymm hu) hw hmem hwneq
      rw [huemail] at hemail
      have hbeq : (w.email == email) = false := by
        simp [hemail]
      simp [resetMatch, hbeq]

/-- Reset token issued to the first demo user an hour before its expiry. -/
def tokenReset : Jwt := jwtSign 1 secretDemo 0 oneHourMs

/-- First demo user during an open reset window. -/
def userAReset : User :=
  { userA with resetPasswordToken := some tokenReset,
               resetPasswordExpires := some oneHourMs }

/-- Demo store in which the first user holds a live reset token. -/
def dbReset : DB := ⟨[userAReset, userB], [taskOfA], 11⟩

/-- Witness for C3: a concrete successful reset followed by a reuse of
the same token, which answers 400 and changes nothing. -/
theorem resetPassword_invalid_and_single_use_witness :
    (UserController_resetPassword dbReset "a@b.com" tokenReset
      "Newpass1!" "Newpass1!" 100).status = 200 ∧
    UserController_resetPassword
        (UserController_resetPassword dbReset "a@b.com" tokenReset
          "Newpass1!" "Newpass1!" 100).dbAfter
        "a@b.com" tokenReset "Newpass1!" "Newpass1!" 100 =
      ⟨400, "Invalid or expired token",
        (UserController_resetPassword dbReset "a@b.com" tokenReset
          "Newpass1!" "Newpass1!" 100).dbAfter⟩ := by
  have h := resetPassword_invalid_and_single_use dbReset "a@b.com" tokenReset
    "Newpass1!" "Newpass1!" 100 userAReset (by decide) (by decide) (by decide)
  exact ⟨h.2.1, h.2.2 "Newpass1!" "Newpass1!" 100⟩

end Taskly
